import Mathlib

/-!
Shallow embedding of `src/scripts/dbmgr.rs`, a development-environment
manager for a PostgreSQL and a Redis instance.

External processes, the file system and network probes are modelled by an
explicit oracle (`Env`) together with a file-system state (`World`); every
operation of the script returns an `Outcome` (normal return, or process
exit with a code), the resulting world, and the ordered trace of effects
it performed.
-/

namespace Dbmgr

/-! ### Path handling (modelling OS path resolution) -/

/-- Split a character list at every slash, keeping empty segments; the
first argument accumulates the current segment in reverse. -/
def splitSlashAux : List Char → List Char → List String
  | cur, [] => [String.mk cur.reverse]
  | cur, c :: cs =>
    if c = '/' then String.mk cur.reverse :: splitSlashAux [] cs
    else splitSlashAux (c :: cur) cs

/-- Components of a path string, split on slashes. -/
def pathComponents (p : String) : List String :=
  splitSlashAux [] p.data

/-- One step of dot-dot normalisation over a reversed component stack. -/
def normStep (stack : List String) (c : String) : List String :=
  if c = "" ∨ c = "." then stack
  else if c = ".." then
    match stack with
    | [] => [".."]
    | top :: rest => if top = ".." then c :: top :: rest else rest
  else c :: stack

/-- Fold `normStep` over a component list, starting from a given stack. -/
def normFold (stack : List String) (cs : List String) : List String :=
  cs.foldl normStep stack

/-- Normalised components of a path: `.` and empty segments dropped,
`..` resolved against the previous component, as the OS resolves paths. -/
def normalizePath (p : String) : List String :=
  (normFold [] (pathComponents p)).reverse

/-- The resolved path `f` lies strictly inside the directory `d`. -/
def pathInside (d f : String) : Bool :=
  (normalizePath d).isPrefixOf (normalizePath f) &&
    decide ((normalizePath d).length < (normalizePath f).length)

/-- Join path components back with slashes. -/
def joinPath : List String → String
  | [] => ""
  | [c] => c
  | c :: cs => c ++ "/" ++ joinPath cs

/-- Rust `Path::parent()` on the path strings this script builds:
drop the last component (`none` for the empty path). -/
def parentPath (p : String) : Option String :=
  if p = "" then none
  else
    match pathComponents p with
    | [] => none
    | [_] => some ""
    | cs => some (joinPath cs.dropLast)

/-! ### Rust string primitives used by the script -/

/-- Decimal digit parse of a character list (no sign handling). -/
def parseNatChars (l : List Char) : Option Nat :=
  if l = [] then none
  else if l.all Char.isDigit then
    some (l.foldl (fun n c => n * 10 + (c.toNat - 48)) 0)
  else none

/-- Rust `str::parse::<u32>`: optional leading plus sign, decimal
digits only, value below `2^32`. -/
def parseU32 (s : String) : Option Nat :=
  let l := match s.data with
    | c :: rest => if c = '+' then rest else c :: rest
    | [] => []
  match parseNatChars l with
  | some n => if n < 4294967296 then some n else none
  | none => none

/-- Drop ASCII whitespace from both ends (Rust `str::trim`). -/
def trimChars (l : List Char) : List Char :=
  ((l.dropWhile Char.isWhitespace).reverse.dropWhile Char.isWhitespace).reverse

/-- String version of `trimChars`. -/
def trimStr (s : String) : String := String.mk (trimChars s.data)

/-- Characters before the first newline. -/
def takeUntilNl : List Char → List Char
  | [] => []
  | c :: cs => if c = '\n' then [] else c :: takeUntilNl cs

/-- Rust `str::lines().next()`: `none` on the empty string, otherwise
the first line. -/
def firstLine (s : String) : Option String :=
  match s.data with
  | [] => none
  | c :: cs => some (String.mk (takeUntilNl (c :: cs)))

/-- Remove every occurrence of the Windows extended-length prefix
(backslash backslash question-mark backslash), Rust
`str::replace` of that pattern by the empty string. -/
def stripUNC : List Char → List Char
  | '\\' :: '\\' :: '?' :: '\\' :: rest => stripUNC rest
  | c :: rest => c :: stripUNC rest
  | [] => []

/-! ### Configuration -/

/-- Mirror of the `DbConfig` clap struct: all fields are strings. -/
structure DbConfig where
  pg_data : String
  pg_host : String
  pg_port : String
  pg_user : String
  pg_password : String
  pg_db : String
  redis_host : String
  redis_port : String
  redis_password : String
  redis_dir : String
deriving DecidableEq, Repr

/-- The configuration made of the declared clap defaults. -/
def defaultConfig : DbConfig :=
  ⟨".dev-data/postgres", "localhost", "5432", "sub2api", "", "sub2api",
   "localhost", "6379", "", ".dev-data/redis"⟩

/-! ### World, events, outcomes -/

/-- The observable file system: an association list from path to contents. -/
structure World where
  files : List (String × String)
deriving DecidableEq, Repr

/-- Contents of the file at `p`, when present. -/
def World.lookupFile (w : World) (p : String) : Option String :=
  (w.files.find? (fun f => f.1 == p)).map (fun f => f.2)

/-- Rust `Path::exists()` for the files this script checks. -/
def World.fileExists (w : World) (p : String) : Bool :=
  (w.lookupFile p).isSome

/-- Rust `fs::write`. -/
def World.writeFile (w : World) (p c : String) : World :=
  ⟨(p, c) :: w.files.filter (fun f => !(f.1 == p))⟩

/-- Rust `fs::remove_file`. -/
def World.removeFile (w : World) (p : String) : World :=
  ⟨w.files.filter (fun f => !(f.1 == p))⟩

/-- Rust `fs::remove_dir_all` when it succeeds: every file resolved at or
under `d` disappears. -/
def World.removeDirAll (w : World) (d : String) : World :=
  ⟨w.files.filter (fun f => !((normalizePath d).isPrefixOf (normalizePath f.1)))⟩

/-- One observable effect, in order of occurrence. -/
inductive Event where
  | run (program : String) (args : List String)
  | spawn (program : String) (args : List String)
  | writeFile (path content : String)
  | removeFile (path : String)
  | createDirAll (path : String)
  | removeDirAll (path : String)
  | pgProbe (url : String)
  | redisProbe (url : String)
  | sleep (ms : Nat)
  | print (s : String)
  | eprint (s : String)
deriving DecidableEq, Repr

/-- An event that invokes an external program. -/
def Event.isExternal : Event → Bool
  | .run _ _ => true
  | .spawn _ _ => true
  | _ => false

/-- An event that mutates the file system. -/
def Event.isFsWrite : Event → Bool
  | .writeFile _ _ => true
  | .removeFile _ => true
  | .createDirAll _ => true
  | .removeDirAll _ => true
  | _ => false

/-- An event that is mere console output. -/
def Event.isConsole : Event → Bool
  | .print _ => true
  | .eprint _ => true
  | _ => false

/-- Every operational event except console output. -/
def Event.isStep (e : Event) : Bool := !e.isConsole

/-- Number of invocations of the external initialisation tool in a trace. -/
def countInitdb (t : List Event) : Nat :=
  (t.filter (fun e =>
    match e with
    | .run p _ => p == "initdb"
    | _ => false)).length

/-- Whether a trace contains a sleep. -/
def hasSleep (t : List Event) : Bool :=
  t.any (fun e => match e with | .sleep _ => true | _ => false)

/-- Outcome of an operation: normal return, or process exit with a code. -/
inductive Outcome where
  | ok : Outcome
  | exited (code : Nat) : Outcome
deriving DecidableEq, Repr

/-- Result of an operation: outcome, final world, effect trace. -/
structure Res where
  out : Outcome
  world : World
  trace : List Event
deriving DecidableEq, Repr

/-- Sequencing as in `main`: a later operation runs only when the earlier
one returned (an `exit` aborts the whole invocation). -/
def Res.andThen (r : Res) (k : World → Res) : Res :=
  match r.out with
  | .ok => ⟨(k r.world).out, (k r.world).world, r.trace ++ (k r.world).trace⟩
  | .exited c => ⟨.exited c, r.world, r.trace⟩

/-! ### The environment oracle -/

/-- Result of `Command::output()` for the self-daemonizing cache server. -/
inductive SpawnResult where
  | finished (success : Bool) (sout serr : String)
  | execError (msg : String)
deriving DecidableEq, Repr

/-- Oracle for everything outside the program: PATH lookups, external
process exit statuses and their filesystem effects, directory-deletion
success, path canonicalisation, and the two network probes (keyed by the
exact connection string the script builds). -/
structure Env where
  toolFound : String → Bool
  runOk : String → List String → Bool
  runEffect : String → List String → World → World
  rmdirOk : String → Bool
  canonical : String → Option String
  spawnResult : String → List String → SpawnResult
  pgConnectResult : String → Except String Unit
  redisConnectResult : String → Except String Unit

/-- `find` followed by `run`: locate the program on PATH (exiting 1 when
absent, as `find` does), then invoke it; the boolean is
`status.success()`, with spawn errors folded into `false` as in `run`. -/
def runCmd (env : Env) (p : String) (args : List String) (w : World) :
    Except Nat (Bool × World) × List Event :=
  if env.toolFound p then
    (Except.ok (env.runOk p args, env.runEffect p args w), [Event.run p args])
  else
    (Except.error 1, [Event.eprint ("✗ " ++ p ++ " not found in PATH")])

/-! ### Fixed paths and argument vectors built by the script -/

/-- The initialisation marker file checked by `pg_init`. -/
def pg_marker (cfg : DbConfig) : String := cfg.pg_data ++ "/PG_VERSION"

/-- The transient credential file written by `pg_init`. -/
def pwfilePath (cfg : DbConfig) : String := cfg.pg_data ++ "/../.pgpass_init"

/-- The pid file read by `pg_read_pid`. -/
def pidPath (cfg : DbConfig) : String := cfg.pg_data ++ "/postmaster.pid"

/-- Arguments passed to `initdb`. -/
def pg_initdb_args (cfg : DbConfig) : List String :=
  ["-D", cfg.pg_data, "-U", cfg.pg_user, "--pwfile", pwfilePath cfg, "--auth", "md5"]

/-- Arguments passed to `pg_ctl start`. -/
def pg_start_args (cfg : DbConfig) : List String :=
  ["start", "-D", cfg.pg_data, "-o", "-p " ++ cfg.pg_port,
   "-l", cfg.pg_data ++ "/postgres.log"]

/-- Arguments passed to `pg_ctl stop`. -/
def pg_stop_args (cfg : DbConfig) : List String :=
  ["stop", "-D", cfg.pg_data, "-m", "fast"]

/-- Arguments passed to `pg_ctl kill`. -/
def pg_kill_args (pid : Nat) : List String :=
  ["kill", "KILL", toString pid]

/-- The canonicalised cache directory with the extended-length prefix
stripped, as computed by `redis_start`. -/
def redisDirS (env : Env) (cfg : DbConfig) : String :=
  String.mk (stripUNC ((env.canonical cfg.redis_dir).getD cfg.redis_dir).data)

/-- Arguments passed to `redis-server`. -/
def redis_server_args (env : Env) (cfg : DbConfig) : List String :=
  ["--port", cfg.redis_port, "--daemonize", "yes",
   "--logfile", redisDirS env cfg ++ "/redis.log",
   "--pidfile", redisDirS env cfg ++ "/redis.pid",
   "--dir", redisDirS env cfg]

/-- Arguments passed to `redis-cli` for shutdown. -/
def redis_cli_args (cfg : DbConfig) : List String :=
  ["-h", cfg.redis_host, "-p", cfg.redis_port, "shutdown", "nosave"]

/-! ### Connection strings -/

/-- The connection string `pg_connect` builds: always the `postgres`
maintenance database, with a three-second connection timeout. -/
def pg_connect_url (cfg : DbConfig) : String :=
  "host=" ++ cfg.pg_host ++ " port=" ++ cfg.pg_port ++ " user=" ++ cfg.pg_user ++
    " password=" ++ cfg.pg_password ++ " dbname=postgres connect_timeout=3"

/-- The liveness probe of the relational service. -/
def pg_connect (env : Env) (cfg : DbConfig) : Except String Unit :=
  env.pgConnectResult (pg_connect_url cfg)

/-- The redis URL `redis_connect` builds. -/
def redis_connect_url (cfg : DbConfig) : String :=
  if cfg.redis_password = "" then
    "redis://" ++ cfg.redis_host ++ ":" ++ cfg.redis_port
  else
    "redis://:" ++ cfg.redis_password ++ "@" ++ cfg.redis_host ++ ":" ++ cfg.redis_port

/-- The liveness probe of the cache service (open, connect with a
three-second timeout, PING — all failure points folded into the oracle). -/
def redis_connect (env : Env) (cfg : DbConfig) : Except String Unit :=
  env.redisConnectResult (redis_connect_url cfg)

/-! ### The operations -/

/-- The `create_dir_all` on the parent of the data directory, performed
by `pg_init` when the parent exists. -/
def parentEvents (cfg : DbConfig) : List Event :=
  match parentPath cfg.pg_data with
  | some par => [Event.createDirAll par]
  | none => []

/-- `pg_init`: skip when the `PG_VERSION` marker exists; otherwise create
the parent directory, write the transient password file, run `initdb`,
remove the password file, and exit 1 when `initdb` failed. -/
def pg_init (env : Env) (cfg : DbConfig) (w : World) : Res :=
  if w.fileExists (pg_marker cfg) then
    ⟨.ok, w, [.print "✓ PostgreSQL data directory already initialized, skipping"]⟩
  else
    let t0 := [Event.print "📦 Initializing PostgreSQL data directory..."] ++
      parentEvents cfg
    let w1 := w.writeFile (pwfilePath cfg) cfg.pg_password
    let t1 := t0 ++ [Event.writeFile (pwfilePath cfg) cfg.pg_password]
    match runCmd env "initdb" (pg_initdb_args cfg) w1 with
    | (Except.error c, t) => ⟨.exited c, w1, t1 ++ t⟩
    | (Except.ok (good, w2), t) =>
      let w3 := w2.removeFile (pwfilePath cfg)
      if good then
        ⟨.ok, w3, t1 ++ t ++ [Event.removeFile (pwfilePath cfg),
          Event.print ("✓ PostgreSQL initialized at " ++ cfg.pg_data)]⟩
      else
        ⟨.exited 1, w3, t1 ++ t ++ [Event.removeFile (pwfilePath cfg),
          Event.eprint "✗ initdb failed"]⟩

/-- `pg_start`: run `pg_ctl start`; exit 1 when it fails. -/
def pg_start (env : Env) (cfg : DbConfig) (w : World) : Res :=
  let t0 := [Event.print "📦 Starting PostgreSQL..."]
  match runCmd env "pg_ctl" (pg_start_args cfg) w with
  | (Except.error c, t) => ⟨.exited c, w, t0 ++ t⟩
  | (Except.ok (good, w1), t) =>
    if good then
      ⟨.ok, w1, t0 ++ t ++ [Event.print
        ("✓ PostgreSQL started on " ++ cfg.pg_host ++ ":" ++ cfg.pg_port)]⟩
    else
      ⟨.exited 1, w1, t0 ++ t ++ [Event.eprint "✗ PostgreSQL failed to start"]⟩

/-- `pg_read_pid`: first line of `postmaster.pid`, trimmed and parsed
as a `u32`. -/
def pg_read_pid (cfg : DbConfig) (w : World) : Option Nat :=
  (w.lookupFile (pidPath cfg)).bind fun s =>
    (firstLine s).bind fun l => parseU32 (trimStr l)

/-- `pg_stop`: no-op when no pid can be read; otherwise `pg_ctl stop -m
fast`, and on failure re-read the pid, send `pg_ctl kill KILL` when one is
present, sleep one second, and report success in every case. -/
def pg_stop (env : Env) (cfg : DbConfig) (w : World) : Res :=
  match pg_read_pid cfg w with
  | none => ⟨.ok, w, [.print "⚠️  PostgreSQL not running, skipping"]⟩
  | some _ =>
    let t0 := [Event.print "⛔ Stopping PostgreSQL..."]
    match runCmd env "pg_ctl" (pg_stop_args cfg) w with
    | (Except.error c, t) => ⟨.exited c, w, t0 ++ t⟩
    | (Except.ok (good, w1), t) =>
      if good then
        ⟨.ok, w1, t0 ++ t ++ [Event.print "✓ PostgreSQL stopped"]⟩
      else
        match pg_read_pid cfg w1 with
        | some pid =>
          let t1 := t0 ++ t ++
            [Event.eprint ("  pg_ctl stop failed, sending KILL to PID " ++
              toString pid ++ "...")]
          match runCmd env "pg_ctl" (pg_kill_args pid) w1 with
          | (Except.error c, t2) => ⟨.exited c, w1, t1 ++ t2⟩
          | (Except.ok (_, w2), t2) =>
            ⟨.ok, w2, t1 ++ t2 ++ [Event.sleep 1000,
              Event.print "✓ PostgreSQL stopped"]⟩
        | none => ⟨.ok, w1, t0 ++ t ++ [Event.print "✓ PostgreSQL stopped"]⟩

/-- `redis_start`: create the working directory, canonicalise it, spawn
`redis-server` in daemonize mode, exit 1 on launch failure (surfacing the
captured output) or when the binary is missing. -/
def redis_start (env : Env) (cfg : DbConfig) (w : World) : Res :=
  let t0 := [Event.print "📦 Starting Redis...", Event.createDirAll cfg.redis_dir]
  let args := redis_server_args env cfg
  if env.toolFound "redis-server" then
    match env.spawnResult "redis-server" args with
    | .finished true _ _ =>
      ⟨.ok, env.runEffect "redis-server" args w,
        t0 ++ [Event.spawn "redis-server" args,
          Event.print ("✓ Redis started on " ++ cfg.redis_host ++ ":" ++ cfg.redis_port)]⟩
    | .finished false sout serr =>
      ⟨.exited 1, env.runEffect "redis-server" args w,
        t0 ++ [Event.spawn "redis-server" args,
          Event.eprint "✗ Redis failed to start"] ++
        (if serr = "" then [] else [Event.eprint ("  stderr: " ++ trimStr serr)]) ++
        (if sout = "" then [] else [Event.eprint ("  stdout: " ++ trimStr sout)])⟩
    | .execError e =>
      ⟨.exited 1, w,
        t0 ++ [Event.spawn "redis-server" args,
          Event.eprint ("✗ Failed to execute redis-server: " ++ e)]⟩
  else
    ⟨.exited 1, w, t0 ++ [Event.eprint "✗ redis-server not found in PATH"]⟩

/-- `redis_stop`: probe first; when unreachable, a no-op success;
otherwise issue `shutdown nosave` through `redis-cli`, ignoring its
result. -/
def redis_stop (env : Env) (cfg : DbConfig) (w : World) : Res :=
  match redis_connect env cfg with
  | .error _ =>
    ⟨.ok, w, [Event.redisProbe (redis_connect_url cfg),
      Event.print "⚠️  Redis not running, skipping"]⟩
  | .ok _ =>
    let t0 := [Event.redisProbe (redis_connect_url cfg),
      Event.print "⛔ Stopping Redis..."]
    match runCmd env "redis-cli" (redis_cli_args cfg) w with
    | (Except.error c, t) => ⟨.exited c, w, t0 ++ t⟩
    | (Except.ok (_, w1), t) => ⟨.ok, w1, t0 ++ t ++ [Event.print "✓ Redis stopped"]⟩

/-- `pg_status`: non-fatal probe report. -/
def pg_status (env : Env) (cfg : DbConfig) : Outcome × List Event :=
  let t0 := [Event.print ("📊 PostgreSQL " ++ cfg.pg_host ++ ":" ++ cfg.pg_port ++
    "/" ++ cfg.pg_db ++ " ... "), Event.pgProbe (pg_connect_url cfg)]
  match pg_connect env cfg with
  | .ok _ => (.ok, t0 ++ [Event.print "running ✓"])
  | .error e => (.ok, t0 ++ [Event.print ("stopped ✗  (" ++ e ++ ")")])

/-- `pg_check`: fatal variant of `pg_status`. -/
def pg_check (env : Env) (cfg : DbConfig) : Outcome × List Event :=
  let t0 := [Event.pgProbe (pg_connect_url cfg)]
  match pg_connect env cfg with
  | .ok _ => (.ok, t0 ++ [Event.print ("✓ PostgreSQL " ++ cfg.pg_host ++ ":" ++
      cfg.pg_port ++ "/" ++ cfg.pg_db ++ " is running")])
  | .error e => (.exited 1, t0 ++ [Event.eprint ("✗ PostgreSQL " ++ cfg.pg_host ++
      ":" ++ cfg.pg_port ++ "/" ++ cfg.pg_db ++ ": " ++ e)])

/-- `redis_status`: non-fatal probe report. -/
def redis_status (env : Env) (cfg : DbConfig) : Outcome × List Event :=
  let t0 := [Event.print ("💾 Redis " ++ cfg.redis_host ++ ":" ++ cfg.redis_port ++
    " ... "), Event.redisProbe (redis_connect_url cfg)]
  match redis_connect env cfg with
  | .ok _ => (.ok, t0 ++ [Event.print "running ✓"])
  | .error e => (.ok, t0 ++ [Event.print ("stopped ✗  (" ++ e ++ ")")])

/-- `redis_check`: fatal variant of `redis_status`. -/
def redis_check (env : Env) (cfg : DbConfig) : Outcome × List Event :=
  let t0 := [Event.redisProbe (redis_connect_url cfg)]
  match redis_connect env cfg with
  | .ok _ => (.ok, t0 ++ [Event.print ("✓ Redis " ++ cfg.redis_host ++ ":" ++
      cfg.redis_port ++ " is running")])
  | .error e => (.exited 1, t0 ++ [Event.eprint ("✗ Redis " ++ cfg.redis_host ++
      ":" ++ cfg.redis_port ++ ": " ++ e)])

/-! ### The orchestrator arms of `main` -/

/-- `Cmd::Up`: start PostgreSQL, then start Redis. -/
def cmd_up (env : Env) (cfg : DbConfig) (w : World) : Res :=
  (pg_start env cfg w).andThen fun w1 => redis_start env cfg w1

/-- `Cmd::Down`: stop PostgreSQL, then stop Redis. -/
def cmd_down (env : Env) (cfg : DbConfig) (w : World) : Res :=
  (pg_stop env cfg w).andThen fun w1 => redis_stop env cfg w1

/-- The `fs::remove_dir_all(..).ok()` calls of the reset arm: the deletion
is attempted, its error discarded, and execution always continues. -/
def tryRemoveDirAll (env : Env) (d : String) (w : World) : Res :=
  ⟨.ok, if env.rmdirOk d then w.removeDirAll d else w, [Event.removeDirAll d]⟩

/-- `Cmd::Reset`: stop both, best-effort delete both directories, then
init and start both, in the order of the source. -/
def cmd_reset (env : Env) (cfg : DbConfig) (w : World) : Res :=
  (pg_stop env cfg w).andThen fun w1 =>
  (redis_stop env cfg w1).andThen fun w2 =>
  (Res.mk .ok w2 [Event.print "🗑️  Cleaning data..."]).andThen fun w2 =>
  (tryRemoveDirAll env cfg.pg_data w2).andThen fun w3 =>
  (tryRemoveDirAll env cfg.redis_dir w3).andThen fun w4 =>
  (pg_init env cfg w4).andThen fun w5 =>
  (pg_start env cfg w5).andThen fun w6 =>
  (redis_start env cfg w6).andThen fun w7 =>
  ⟨.ok, w7, [Event.print "✅ Reset complete!"]⟩

/-! ### Helper lemmas -/

/-- Appending strings of different lengths to a common prefix yields
different strings. -/
theorem append_ne_of_length_ne (a : String) {s t : String}
    (h : s.length ≠ t.length) : a ++ s ≠ a ++ t := by
  intro he
  apply h
  have hl := congrArg String.length he
  rw [String.length_append, String.length_append] at hl
  omega

/-- The marker file and the transient credential file are distinct paths. -/
theorem pg_marker_ne_pwfile (cfg : DbConfig) : pg_marker cfg ≠ pwfilePath cfg := by
  apply append_ne_of_length_ne
  decide

/-- Filtering out the entries at a different key leaves a lookup unchanged. -/
theorem find?_filter_of_ne (fs : List (String × String)) (p q : String) (h : q ≠ p) :
    (fs.filter (fun f => !(f.1 == p))).find? (fun f => f.1 == q) =
      fs.find? (fun f => f.1 == q) := by
  induction fs with
  | nil => rfl
  | cons f fs ih =>
    rw [List.filter_cons]
    by_cases hf : f.1 = p
    · rw [if_neg (by simp [hf])]
      rw [List.find?_cons_of_neg _ (by simp [hf]; exact fun e => h e.symm)]
      exact ih
    · rw [if_pos (by simp [hf])]
      by_cases hq : f.1 = q
      · rw [List.find?_cons_of_pos _ (by simp [hq]),
          List.find?_cons_of_pos _ (by simp [hq])]
      · rw [List.find?_cons_of_neg _ (by simp [hq]),
          List.find?_cons_of_neg _ (by simp [hq])]
        exact ih

/-- Removing one file does not affect the lookup of a different path. -/
theorem lookupFile_removeFile_ne (w : World) {p q : String} (h : q ≠ p) :
    (w.removeFile p).lookupFile q = w.lookupFile q := by
  unfold World.removeFile World.lookupFile
  rw [find?_filter_of_ne w.files p q h]

/-- Removing one file does not affect the existence of a different path. -/
theorem fileExists_removeFile_ne (w : World) {p q : String} (h : q ≠ p) :
    (w.removeFile p).fileExists q = w.fileExists q := by
  unfold World.fileExists
  rw [lookupFile_removeFile_ne w h]

/-- `countInitdb` is additive over trace concatenation. -/
@[simp] theorem countInitdb_append (s t : List Event) :
    countInitdb (s ++ t) = countInitdb s + countInitdb t := by
  unfold countInitdb
  rw [List.filter_append, List.length_append]

@[simp] theorem countInitdb_nil : countInitdb [] = 0 := rfl

@[simp] theorem countInitdb_print (s : String) (t : List Event) :
    countInitdb (Event.print s :: t) = countInitdb t := rfl

@[simp] theorem countInitdb_eprint (s : String) (t : List Event) :
    countInitdb (Event.eprint s :: t) = countInitdb t := rfl

@[simp] theorem countInitdb_writeFile (p c : String) (t : List Event) :
    countInitdb (Event.writeFile p c :: t) = countInitdb t := rfl

@[simp] theorem countInitdb_removeFile (p : String) (t : List Event) :
    countInitdb (Event.removeFile p :: t) = countInitdb t := rfl

@[simp] theorem countInitdb_createDirAll (p : String) (t : List Event) :
    countInitdb (Event.createDirAll p :: t) = countInitdb t := rfl

@[simp] theorem countInitdb_removeDirAll (p : String) (t : List Event) :
    countInitdb (Event.removeDirAll p :: t) = countInitdb t := rfl

@[simp] theorem countInitdb_pgProbe (u : String) (t : List Event) :
    countInitdb (Event.pgProbe u :: t) = countInitdb t := rfl

@[simp] theorem countInitdb_redisProbe (u : String) (t : List Event) :
    countInitdb (Event.redisProbe u :: t) = countInitdb t := rfl

@[simp] theorem countInitdb_sleep (n : Nat) (t : List Event) :
    countInitdb (Event.sleep n :: t) = countInitdb t := rfl

@[simp] theorem countInitdb_spawn (p : String) (a : List String) (t : List Event) :
    countInitdb (Event.spawn p a :: t) = countInitdb t := rfl

/-- A run event adds one exactly when the program is `initdb`. -/
theorem countInitdb_run (p : String) (a : List String) (t : List Event) :
    countInitdb (Event.run p a :: t) =
      (if p = "initdb" then 1 else 0) + countInitdb t := by
  unfold countInitdb
  rw [List.filter_cons]
  by_cases hp : p = "initdb"
  · simp [hp, Nat.add_comm]
  · simp [hp]

/-- The parent-directory events never invoke `initdb`. -/
@[simp] theorem countInitdb_parentEvents (cfg : DbConfig) :
    countInitdb (parentEvents cfg) = 0 := by
  unfold parentEvents
  cases parentPath cfg.pg_data <;> rfl

/-- A single `pg_init` call invokes `initdb` at most once. -/
theorem countInitdb_pg_init_le_one (env : Env) (cfg : DbConfig) (w : World) :
    countInitdb (pg_init env cfg w).trace ≤ 1 := by
  unfold pg_init
  by_cases hm : w.fileExists (pg_marker cfg) = true
  · simp [hm]
  · rw [if_neg hm]
    simp only [runCmd]
    by_cases htf : env.toolFound "initdb" = true
    · rw [if_pos htf]
      by_cases hro : env.runOk "initdb" (pg_initdb_args cfg) = true
      · simp only [hro, if_pos rfl]
        simp [countInitdb_run]
      · simp only [Bool.not_eq_true] at hro
        simp only [hro, Bool.false_eq_true, if_neg]
        simp [countInitdb_run]
    · simp only [Bool.not_eq_true] at htf
      rw [if_neg (by simp [htf])]
      simp

/-- When the marker is present, `pg_init` is exactly a skip. -/
theorem pg_init_marker_skip (env : Env) (cfg : DbConfig) (w : World)
    (hm : w.fileExists (pg_marker cfg) = true) :
    pg_init env cfg w =
      ⟨.ok, w, [.print "✓ PostgreSQL data directory already initialized, skipping"]⟩ := by
  simp [pg_init, hm]

/-- When a successful `initdb` establishes the marker, a `pg_init` call
that returns leaves a world in which the marker exists. -/
theorem pg_init_ok_marker (env : Env) (cfg : DbConfig) (w : World)
    (hcr : ∀ w₁, env.runOk "initdb" (pg_initdb_args cfg) = true →
        (env.runEffect "initdb" (pg_initdb_args cfg) w₁).fileExists (pg_marker cfg) = true)
    (hok : (pg_init env cfg w).out = .ok) :
    ((pg_init env cfg w).world).fileExists (pg_marker cfg) = true := by
  by_cases hm : w.fileExists (pg_marker cfg) = true
  · rw [pg_init_marker_skip env cfg w hm]
    exact hm
  · revert hok
    unfold pg_init
    rw [if_neg hm]
    simp only [runCmd]
    by_cases htf : env.toolFound "initdb" = true
    · rw [if_pos htf]
      by_cases hro : env.runOk "initdb" (pg_initdb_args cfg) = true
      · simp only [hro, if_pos rfl]
        intro _
        have hmark : (((env.runEffect "initdb" (pg_initdb_args cfg)
            (w.writeFile (pwfilePath cfg) cfg.pg_password)).removeFile
              (pwfilePath cfg)).fileExists (pg_marker cfg)) = true := by
          rw [fileExists_removeFile_ne _ (pg_marker_ne_pwfile cfg)]
          exact hcr _ hro
        exact hmark
      · simp only [Bool.not_eq_true] at hro
        simp only [hro, Bool.false_eq_true, if_neg]
        intro hok
        exact absurd hok (by simp)
    · simp only [Bool.not_eq_true] at htf
      rw [if_neg (by simp [htf])]
      intro hok
      exact absurd hok (by simp)

/-- C1: when the initialization marker `PG_VERSION` exists inside the data
directory, `pg_init` returns success without invoking any external program
and without any filesystem side effect (its whole trace is console output
and the world is unchanged); moreover, whenever a successful `initdb`
invocation establishes the marker, calling `pg_init` twice in a row
invokes `initdb` at most once. -/
theorem pg_init_idempotent (env : Env) (cfg : DbConfig) (w : World) :
    (w.fileExists (pg_marker cfg) = true →
      (pg_init env cfg w).out = .ok ∧
      (pg_init env cfg w).world = w ∧
      (pg_init env cfg w).trace.all Event.isConsole = true) ∧
    ((∀ w₁, env.runOk "initdb" (pg_initdb_args cfg) = true →
        (env.runEffect "initdb" (pg_initdb_args cfg) w₁).fileExists (pg_marker cfg) = true) →
      (pg_init env cfg w).out = .ok →
      countInitdb ((pg_init env cfg w).trace ++
        (pg_init env cfg (pg_init env cfg w).world).trace) ≤ 1) := by
  constructor
  · intro hm
    rw [pg_init_marker_skip env cfg w hm]
    refine ⟨rfl, rfl, rfl⟩
  · intro hcr hok
    rw [countInitdb_append]
    have h2 := pg_init_ok_marker env cfg w hcr hok
    have h4 : countInitdb (pg_init env cfg (pg_init env cfg w).world).trace = 0 := by
      rw [pg_init_marker_skip env cfg _ h2]
      rfl
    have h5 := countInitdb_pg_init_le_one env cfg w
    omega

/-- Witness for C1 at the default configuration with the marker present. -/
theorem pg_init_idempotent_witness :
    let cfg := defaultConfig
    let env : Env := ⟨fun _ => true, fun _ _ => true,
      fun _ _ w => w.writeFile (pg_marker defaultConfig) "16", fun _ => true,
      fun _ => none, fun _ _ => .finished true "" "",
      fun _ => .ok (), fun _ => .ok ()⟩
    let w : World := ⟨[(pg_marker defaultConfig, "16")]⟩
    (pg_init env cfg w).out = .ok ∧
    (pg_init env cfg w).world = w ∧
    (pg_init env cfg w).trace.all Event.isConsole = true ∧
    countInitdb ((pg_init env cfg w).trace ++
      (pg_init env cfg (pg_init env cfg w).world).trace) ≤ 1 := by
  intro cfg env w
  obtain ⟨h1, h2⟩ := pg_init_idempotent env cfg w
  obtain ⟨a, b, c⟩ := h1 (by decide)
  exact ⟨a, b, c, h2 (fun w₁ _ => by simp [World.fileExists, World.writeFile, World.lookupFile]) a⟩

/-- Filtering out the entries at a key makes its lookup fail. -/
theorem find?_filter_self (fs : List (String × String)) (p : String) :
    (fs.filter (fun f => !(f.1 == p))).find? (fun f => f.1 == p) = none := by
  induction fs with
  | nil => rfl
  | cons f fs ih =>
    rw [List.filter_cons]
    by_cases hf : f.1 = p
    · rw [if_neg (by simp [hf])]
      exact ih
    · rw [if_pos (by simp [hf])]
      rw [List.find?_cons_of_neg _ (by simp [hf])]
      exact ih

/-- After removing a file it no longer exists. -/
theorem fileExists_removeFile_self (w : World) (p : String) :
    (w.removeFile p).fileExists p = false := by
  unfold World.removeFile World.fileExists World.lookupFile
  rw [find?_filter_self]
  rfl

/-! ### Concrete fixtures used by witnesses and counterexamples -/

/-- An environment where every tool is found, every invocation succeeds
without filesystem effects, and both probes succeed. -/
def envAllOk : Env :=
  ⟨fun _ => true, fun _ _ => true, fun _ _ w => w, fun _ => true,
   fun _ => none, fun _ _ => .finished true "" "",
   fun _ => .ok (), fun _ => .ok ()⟩

/-- Like `envAllOk` except that `initdb` is absent from PATH. -/
def envNoInitdb : Env :=
  ⟨fun p => !(p == "initdb"), fun _ _ => true, fun _ _ w => w, fun _ => true,
   fun _ => none, fun _ _ => .finished true "" "",
   fun _ => .ok (), fun _ => .ok ()⟩

/-- Like `envAllOk` except that the graceful `pg_ctl stop` fails and its
attempt clears the pid file. -/
def envStopFail : Env :=
  ⟨fun _ => true,
   fun p a => !(p == "pg_ctl" && a == pg_stop_args defaultConfig),
   fun p a w => if p == "pg_ctl" && a == pg_stop_args defaultConfig
     then w.removeFile (pidPath defaultConfig) else w,
   fun _ => true, fun _ => none, fun _ _ => .finished true "" "",
   fun _ => .ok (), fun _ => .ok ()⟩

/-- The empty file system. -/
def wEmpty : World := ⟨[]⟩

/-- A world holding only a pid file with first line `123`. -/
def wPid123 : World := ⟨[(pidPath defaultConfig, "123\n")]⟩

/-! ### C2: the transient credential file -/

/-- C2 counterexample: with `initdb` absent from PATH and no marker, the
run writes the credential file, then exits with status 1 from inside the
PATH lookup before ever reaching the cleanup: no `removeFile` happens and
the credential file is left on disk with the password. -/
theorem pg_init_pwfile_leak_counterexample :
    (pg_init envNoInitdb defaultConfig wEmpty).out = .exited 1 ∧
    Event.writeFile (pwfilePath defaultConfig) defaultConfig.pg_password ∈
      (pg_init envNoInitdb defaultConfig wEmpty).trace ∧
    Event.removeFile (pwfilePath defaultConfig) ∉
      (pg_init envNoInitdb defaultConfig wEmpty).trace ∧
    (pg_init envNoInitdb defaultConfig wEmpty).world.fileExists
      (pwfilePath defaultConfig) = true := by
  decide

/-- C2 (amended): whenever the `initdb` lookup on PATH succeeds — so the
invocation attempt returns control, whether the tool exits zero, exits
non-zero, or cannot be spawned — the credential file holding the
administrative password is written before the invocation and removed
directly after it, and is absent from the final world; only a termination
before the invocation returns (such as `exit(1)` when the tool is missing
from PATH) can leak it. -/
theorem pg_init_pwfile_cleanup (env : Env) (cfg : DbConfig) (w : World)
    (htf : env.toolFound "initdb" = true)
    (hm : w.fileExists (pg_marker cfg) = false) :
    ∃ pre post,
      (pg_init env cfg w).trace =
        pre ++ [Event.run "initdb" (pg_initdb_args cfg),
                Event.removeFile (pwfilePath cfg)] ++ post ∧
      Event.writeFile (pwfilePath cfg) cfg.pg_password ∈ pre ∧
      (pg_init env cfg w).world.fileExists (pwfilePath cfg) = false := by
  unfold pg_init
  rw [if_neg (by simp [hm])]
  simp only [runCmd, if_pos htf]
  by_cases hro : env.runOk "initdb" (pg_initdb_args cfg) = true
  · simp only [hro, if_pos rfl]
    refine ⟨[Event.print "📦 Initializing PostgreSQL data directory..."] ++
        parentEvents cfg ++ [Event.writeFile (pwfilePath cfg) cfg.pg_password],
      [Event.print ("✓ PostgreSQL initialized at " ++ cfg.pg_data)], ?_, by simp, ?_⟩
    · simp
    · exact fileExists_removeFile_self _ _
  · simp only [Bool.not_eq_true] at hro
    simp only [hro, Bool.false_eq_true, if_neg]
    refine ⟨[Event.print "📦 Initializing PostgreSQL data directory..."] ++
        parentEvents cfg ++ [Event.writeFile (pwfilePath cfg) cfg.pg_password],
      [Event.eprint "✗ initdb failed"], ?_, by simp, ?_⟩
    · simp
    · exact fileExists_removeFile_self _ _

/-- Witness for the amended C2 at the default configuration (with a
failing `initdb`, showing cleanup on the failure path too). -/
theorem pg_init_pwfile_cleanup_witness :
    ∃ pre post,
      (pg_init ⟨fun _ => true, fun _ _ => false, fun _ _ w => w, fun _ => true,
        fun _ => none, fun _ _ => .finished true "" "",
        fun _ => .ok (), fun _ => .ok ()⟩ defaultConfig wEmpty).trace =
        pre ++ [Event.run "initdb" (pg_initdb_args defaultConfig),
                Event.removeFile (pwfilePath defaultConfig)] ++ post ∧
      Event.writeFile (pwfilePath defaultConfig) defaultConfig.pg_password ∈ pre ∧
      (pg_init ⟨fun _ => true, fun _ _ => false, fun _ _ w => w, fun _ => true,
        fun _ => none, fun _ _ => .finished true "" "",
        fun _ => .ok (), fun _ => .ok ()⟩ defaultConfig wEmpty).world.fileExists
          (pwfilePath defaultConfig) = false :=
  pg_init_pwfile_cleanup _ defaultConfig wEmpty (by decide) (by decide)

/-! ### C9: unparsable pid file -/

/-- C9: when the pid file exists but is empty or its first line does not
parse as an unsigned 32-bit integer, the process-presence signal is `none`
and `pg_stop` is a pure no-op success with no external invocation. -/
theorem pid_parse_failure_stop_noop (env : Env) (cfg : DbConfig) (w : World) (s : String)
    (hf : w.lookupFile (pidPath cfg) = some s)
    (hp : firstLine s = none ∨ ∀ l, firstLine s = some l → parseU32 (trimStr l) = none) :
    pg_read_pid cfg w = none ∧
    pg_stop env cfg w = ⟨.ok, w, [.print "⚠️  PostgreSQL not running, skipping"]⟩ ∧
    (pg_stop env cfg w).trace.all (fun e => !e.isExternal) = true := by
  have hnone : pg_read_pid cfg w = none := by
    unfold pg_read_pid
    rw [hf]
    show (firstLine s).bind (fun l => parseU32 (trimStr l)) = none
    cases hl : firstLine s with
    | none => rfl
    | some l =>
      rcases hp with hp | hp
      · rw [hp] at hl
        exact absurd hl (by simp)
      · exact hp l hl
  have hstop : pg_stop env cfg w =
      ⟨.ok, w, [.print "⚠️  PostgreSQL not running, skipping"]⟩ := by
    unfold pg_stop
    rw [hnone]
  refine ⟨hnone, hstop, ?_⟩
  rw [hstop]
  rfl

/-- Witness for C9: a pid file whose first line is not a number. -/
theorem pid_parse_failure_stop_noop_witness :
    pg_read_pid defaultConfig ⟨[(pidPath defaultConfig, "abc\n123")]⟩ = none ∧
    pg_stop envAllOk defaultConfig ⟨[(pidPath defaultConfig, "abc\n123")]⟩ =
      ⟨.ok, ⟨[(pidPath defaultConfig, "abc\n123")]⟩,
        [.print "⚠️  PostgreSQL not running, skipping"]⟩ ∧
    (pg_stop envAllOk defaultConfig ⟨[(pidPath defaultConfig, "abc\n123")]⟩).trace.all
      (fun e => !e.isExternal) = true :=
  pid_parse_failure_stop_noop envAllOk defaultConfig _ "abc\n123" (by decide)
    (Or.inr (by decide))

/-! ### C3: the graceful-to-forceful stop fallback -/

/-- C3 counterexample: pid 123 is read, the graceful stop fails, and the
failed stop attempt clears the pid file; the code then re-reads the pid
file, finds nothing, and reports success without ever invoking the
forceful kill with the previously-read pid 123 and without pausing —
contradicting the claim that the fallback is attempted with the
previously-read pid and followed by a pause. -/
theorem pg_stop_fallback_counterexample :
    pg_read_pid defaultConfig wPid123 = some 123 ∧
    envStopFail.runOk "pg_ctl" (pg_stop_args defaultConfig) = false ∧
    (pg_stop envStopFail defaultConfig wPid123).out = .ok ∧
    Event.run "pg_ctl" (pg_kill_args 123) ∉
      (pg_stop envStopFail defaultConfig wPid123).trace ∧
    hasSleep (pg_stop envStopFail defaultConfig wPid123).trace = false := by
  decide

/-- C3 (amended): when the graceful fast-stop invocation fails and a pid
was initially read, `pg_stop` re-reads the pid file after the failed
invocation; if that re-read yields a pid, the forceful-kill fallback is
invoked with the re-read pid (equal to the initially-read one whenever the
failed stop left the pid file unchanged) and a one-second pause follows;
if the re-read yields none, the fallback is skipped; in every case the
overall stop reports success. -/
theorem pg_stop_fallback_reread (env : Env) (cfg : DbConfig) (w : World) (pid : Nat)
    (htf : env.toolFound "pg_ctl" = true)
    (hr : pg_read_pid cfg w = some pid)
    (hro : env.runOk "pg_ctl" (pg_stop_args cfg) = false) :
    (pg_stop env cfg w).out = .ok ∧
    (∀ pid2, pg_read_pid cfg (env.runEffect "pg_ctl" (pg_stop_args cfg) w) = some pid2 →
      Event.run "pg_ctl" (pg_kill_args pid2) ∈ (pg_stop env cfg w).trace ∧
      Event.sleep 1000 ∈ (pg_stop env cfg w).trace) ∧
    (pg_read_pid cfg (env.runEffect "pg_ctl" (pg_stop_args cfg) w) = none →
      (pg_stop env cfg w).trace.all (fun e =>
        match e with
        | Event.run _ a => a.head? == some "stop"
        | Event.sleep _ => false
        | _ => true) = true) := by
  unfold pg_stop
  rw [hr]
  simp only [runCmd, if_pos htf]
  simp only [hro, Bool.false_eq_true, if_neg]
  cases hr2 : pg_read_pid cfg (env.runEffect "pg_ctl" (pg_stop_args cfg) w) with
  | none =>
    refine ⟨rfl, ?_, ?_⟩
    · intro pid2 h
      exact absurd h (by simp)
    · intro _
      simp [pg_stop_args]
  | some pid2 =>
    simp only [runCmd, if_pos htf, Bool.false_eq_true, if_false]
    refine ⟨by simp, ?_, ?_⟩
    · intro pid3 h
      cases h
      constructor
      · simp
      · simp
    · intro h
      exact absurd h (by simp)

/-- Witness for the amended C3: graceful stop fails, pid file unchanged,
kill with the same pid and a pause follow, and the stop succeeds. -/
theorem pg_stop_fallback_reread_witness :
    let env : Env := ⟨fun _ => true,
      fun p a => !(p == "pg_ctl" && a == pg_stop_args defaultConfig),
      fun _ _ w => w, fun _ => true, fun _ => none,
      fun _ _ => .finished true "" "", fun _ => .ok (), fun _ => .ok ()⟩
    (pg_stop env defaultConfig wPid123).out = .ok ∧
    Event.run "pg_ctl" (pg_kill_args 123) ∈ (pg_stop env defaultConfig wPid123).trace ∧
    Event.sleep 1000 ∈ (pg_stop env defaultConfig wPid123).trace := by
  intro env
  have h := pg_stop_fallback_reread env defaultConfig wPid123 123 (by decide) (by decide)
    (by decide)
  exact ⟨h.1, (h.2.1 123 (by decide)).1, (h.2.1 123 (by decide)).2⟩

/-! ### C4: stop is an idempotent no-op and always succeeds -/

/-- C4: for both services, stopping an already-stopped service (no pid
readable for PostgreSQL, liveness probe failing for Redis) is a pure
no-op success with no external invocation; and as long as the respective
control tool is on PATH, stop always reports success, running or not. -/
theorem stop_idempotent_always_succeeds (env : Env) (cfg : DbConfig) (w : World) :
    (pg_read_pid cfg w = none →
      pg_stop env cfg w = ⟨.ok, w, [.print "⚠️  PostgreSQL not running, skipping"]⟩ ∧
      (pg_stop env cfg w).trace.all (fun e => !e.isExternal) = true) ∧
    (∀ e, redis_connect env cfg = .error e →
      redis_stop env cfg w = ⟨.ok, w, [Event.redisProbe (redis_connect_url cfg),
        Event.print "⚠️  Redis not running, skipping"]⟩ ∧
      (redis_stop env cfg w).trace.all (fun e => !e.isExternal) = true) ∧
    (env.toolFound "pg_ctl" = true → (pg_stop env cfg w).out = .ok) ∧
    (env.toolFound "redis-cli" = true → (redis_stop env cfg w).out = .ok) := by
  refine ⟨?_, ?_, ?_, ?_⟩
  · intro hr
    have h : pg_stop env cfg w =
        ⟨.ok, w, [.print "⚠️  PostgreSQL not running, skipping"]⟩ := by
      unfold pg_stop
      rw [hr]
    rw [h]
    exact ⟨rfl, rfl⟩
  · intro e he
    have h : redis_stop env cfg w =
        ⟨.ok, w, [Event.redisProbe (redis_connect_url cfg),
          Event.print "⚠️  Redis not running, skipping"]⟩ := by
      unfold redis_stop
      rw [he]
    rw [h]
    exact ⟨rfl, rfl⟩
  · intro htf
    unfold pg_stop
    cases hr : pg_read_pid cfg w with
    | none => rfl
    | some pid =>
      simp only [runCmd, if_pos htf]
      by_cases hro : env.runOk "pg_ctl" (pg_stop_args cfg) = true
      · simp [hro]
      · simp only [Bool.not_eq_true] at hro
        simp only [hro, Bool.false_eq_true, if_neg]
        cases hr2 : pg_read_pid cfg (env.runEffect "pg_ctl" (pg_stop_args cfg) w) with
        | none => rfl
        | some pid2 => simp [runCmd, htf]
  · intro htf
    unfold redis_stop
    cases hc : redis_connect env cfg with
    | error e => rfl
    | ok u => simp [runCmd, htf]

/-- Witness for C4 on a stopped pair of services: both stops are pure
no-op successes without external invocations. -/
theorem stop_idempotent_always_succeeds_witness :
    let env : Env := ⟨fun _ => true, fun _ _ => true, fun _ _ w => w, fun _ => true,
      fun _ => none, fun _ _ => .finished true "" "",
      fun _ => .ok (), fun _ => .error "connection refused"⟩
    pg_stop env defaultConfig wEmpty =
      ⟨.ok, wEmpty, [.print "⚠️  PostgreSQL not running, skipping"]⟩ ∧
    (pg_stop env defaultConfig wEmpty).trace.all (fun e => !e.isExternal) = true ∧
    redis_stop env defaultConfig wEmpty =
      ⟨.ok, wEmpty, [Event.redisProbe (redis_connect_url defaultConfig),
        Event.print "⚠️  Redis not running, skipping"]⟩ ∧
    (redis_stop env defaultConfig wEmpty).trace.all (fun e => !e.isExternal) = true ∧
    (pg_stop env defaultConfig wEmpty).out = .ok ∧
    (redis_stop env defaultConfig wEmpty).out = .ok := by
  intro env
  have h := stop_idempotent_always_succeeds env defaultConfig wEmpty
  exact ⟨(h.1 (by decide)).1, (h.1 (by decide)).2,
    (h.2.1 "connection refused" rfl).1, (h.2.1 "connection refused" rfl).2,
    h.2.2.1 (by decide), h.2.2.2 (by decide)⟩

/-! ### C5: the relational liveness probe -/

/-- C5: the relational liveness probe is built from the administrative
maintenance database: its connection string is entirely independent of the
configured application database name, ends in a fixed
`dbname=postgres connect_timeout=3` suffix, and consequently the probe
result itself never depends on the application database name. -/
theorem pg_probe_maintenance_db (env : Env) (cfg : DbConfig) (d : String) :
    pg_connect_url { cfg with pg_db := d } = pg_connect_url cfg ∧
    pg_connect env { cfg with pg_db := d } = pg_connect env cfg ∧
    (∃ p, pg_connect_url cfg = p ++ " dbname=postgres connect_timeout=3") := by
  refine ⟨rfl, rfl, ⟨"host=" ++ cfg.pg_host ++ " port=" ++ cfg.pg_port ++
    " user=" ++ cfg.pg_user ++ " password=" ++ cfg.pg_password, rfl⟩⟩

/-! ### C6: Status reports, Check exits -/

/-- C6: for both services, Status always returns normally — printing the
running state on probe success and the stopped state with the failure
detail on probe failure — while Check returns normally and prints its
success message exactly when the probe succeeds, and exits with status 1
together with an error message exactly when the probe fails. -/
theorem status_nonfatal_check_fatal (env : Env) (cfg : DbConfig) :
    (pg_status env cfg).1 = .ok ∧
    (redis_status env cfg).1 = .ok ∧
    (∀ e, env.pgConnectResult (pg_connect_url cfg) = .error e →
      Event.print ("stopped ✗  (" ++ e ++ ")") ∈ (pg_status env cfg).2 ∧
      (pg_check env cfg).1 = .exited 1 ∧
      Event.eprint ("✗ PostgreSQL " ++ cfg.pg_host ++ ":" ++ cfg.pg_port ++ "/" ++
        cfg.pg_db ++ ": " ++ e) ∈ (pg_check env cfg).2) ∧
    (∀ u, env.pgConnectResult (pg_connect_url cfg) = .ok u →
      Event.print "running ✓" ∈ (pg_status env cfg).2 ∧
      (pg_check env cfg).1 = .ok ∧
      Event.print ("✓ PostgreSQL " ++ cfg.pg_host ++ ":" ++ cfg.pg_port ++ "/" ++
        cfg.pg_db ++ " is running") ∈ (pg_check env cfg).2) ∧
    (∀ e, env.redisConnectResult (redis_connect_url cfg) = .error e →
      Event.print ("stopped ✗  (" ++ e ++ ")") ∈ (redis_status env cfg).2 ∧
      (redis_check env cfg).1 = .exited 1 ∧
      Event.eprint ("✗ Redis " ++ cfg.redis_host ++ ":" ++ cfg.redis_port ++ ": " ++ e) ∈
        (redis_check env cfg).2) ∧
    (∀ u, env.redisConnectResult (redis_connect_url cfg) = .ok u →
      Event.print "running ✓" ∈ (redis_status env cfg).2 ∧
      (redis_check env cfg).1 = .ok ∧
      Event.print ("✓ Redis " ++ cfg.redis_host ++ ":" ++ cfg.redis_port ++
        " is running") ∈ (redis_check env cfg).2) := by
  refine ⟨?_, ?_, ?_, ?_, ?_, ?_⟩
  · unfold pg_status pg_connect
    cases env.pgConnectResult (pg_connect_url cfg) <;> rfl
  · unfold redis_status redis_connect
    cases env.redisConnectResult (redis_connect_url cfg) <;> rfl
  · intro e he
    unfold pg_status pg_check pg_connect
    rw [he]
    refine ⟨by simp, rfl, by simp⟩
  · intro u hu
    unfold pg_status pg_check pg_connect
    rw [hu]
    refine ⟨by simp, rfl, by simp⟩
  · intro e he
    unfold redis_status redis_check redis_connect
    rw [he]
    refine ⟨by simp, rfl, by simp⟩
  · intro u hu
    unfold redis_status redis_check redis_connect
    rw [hu]
    refine ⟨by simp, rfl, by simp⟩

/-- Witness for C6 with the relational probe failing and the cache probe
succeeding: relational Status reports stopped with the failure detail and
relational Check exits 1 with an error message, while cache Status prints
the running state and cache Check returns normally with its success
message. -/
theorem status_nonfatal_check_fatal_witness :
    let env : Env := ⟨fun _ => true, fun _ _ => true, fun _ _ w => w, fun _ => true,
      fun _ => none, fun _ _ => .finished true "" "",
      fun _ => .error "connection refused", fun _ => .ok ()⟩
    (pg_status env defaultConfig).1 = .ok ∧
    (redis_status env defaultConfig).1 = .ok ∧
    Event.print ("stopped ✗  (" ++ "connection refused" ++ ")") ∈
      (pg_status env defaultConfig).2 ∧
    (pg_check env defaultConfig).1 = .exited 1 ∧
    Event.eprint ("✗ PostgreSQL " ++ defaultConfig.pg_host ++ ":" ++
      defaultConfig.pg_port ++ "/" ++ defaultConfig.pg_db ++ ": " ++
      "connection refused") ∈ (pg_check env defaultConfig).2 ∧
    Event.print "running ✓" ∈ (redis_status env defaultConfig).2 ∧
    (redis_check env defaultConfig).1 = .ok ∧
    Event.print ("✓ Redis " ++ defaultConfig.redis_host ++ ":" ++
      defaultConfig.redis_port ++ " is running") ∈ (redis_check env defaultConfig).2 := by
  intro env
  have h := status_nonfatal_check_fatal env defaultConfig
  exact ⟨h.1, h.2.1, (h.2.2.1 "connection refused" rfl).1,
    (h.2.2.1 "connection refused" rfl).2.1, (h.2.2.1 "connection refused" rfl).2.2,
    (h.2.2.2.2.2 () rfl).1, (h.2.2.2.2.2 () rfl).2.1, (h.2.2.2.2.2 () rfl).2.2⟩

/-! ### C8: fixed relational-first order in Up and Down -/

/-- Whether a trace launches the cache server. -/
def hasSpawn (t : List Event) : Bool :=
  t.any (fun e => match e with | .spawn _ _ => true | _ => false)

/-- Sequencing after an exit is the exit itself. -/
theorem andThen_exited (r : Res) (k : World → Res) (c : Nat) (h : r.out = .exited c) :
    r.andThen k = r := by
  obtain ⟨o, w, t⟩ := r
  cases h
  rfl

/-- Sequencing after a normal return runs the continuation. -/
theorem andThen_ok (r : Res) (k : World → Res) (h : r.out = .ok) :
    r.andThen k =
      ⟨(k r.world).out, (k r.world).world, r.trace ++ (k r.world).trace⟩ := by
  obtain ⟨o, w, t⟩ := r
  cases h
  rfl

/-- A `pg_start` call never launches the cache server. -/
theorem hasSpawn_pg_start (env : Env) (cfg : DbConfig) (w : World) :
    hasSpawn (pg_start env cfg w).trace = false := by
  unfold pg_start
  simp only [runCmd]
  by_cases htf : env.toolFound "pg_ctl" = true
  · rw [if_pos htf]
    by_cases hro : env.runOk "pg_ctl" (pg_start_args cfg) = true
    · simp [hro, hasSpawn]
    · simp only [Bool.not_eq_true] at hro
      simp [hro, hasSpawn]
  · simp only [Bool.not_eq_true] at htf
    rw [if_neg (by simp [htf])]
    simp [hasSpawn]

/-- C8: Up starts the relational service first and then the cache
service — when the relational start fails the whole Up is that failure and
the cache server is never launched, and when it succeeds the cache start
runs on the resulting world with no further action after it (no
rollback) — and Down stops the relational service first, then the cache
service. -/
theorem up_down_relational_first (env : Env) (cfg : DbConfig) (w : World) :
    (∀ c, (pg_start env cfg w).out = .exited c →
      cmd_up env cfg w = pg_start env cfg w ∧
      hasSpawn (cmd_up env cfg w).trace = false) ∧
    ((pg_start env cfg w).out = .ok →
      cmd_up env cfg w =
        ⟨(redis_start env cfg (pg_start env cfg w).world).out,
         (redis_start env cfg (pg_start env cfg w).world).world,
         (pg_start env cfg w).trace ++
           (redis_start env cfg (pg_start env cfg w).world).trace⟩) ∧
    ((pg_stop env cfg w).out = .ok →
      cmd_down env cfg w =
        ⟨(redis_stop env cfg (pg_stop env cfg w).world).out,
         (redis_stop env cfg (pg_stop env cfg w).world).world,
         (pg_stop env cfg w).trace ++
           (redis_stop env cfg (pg_stop env cfg w).world).trace⟩) ∧
    (∀ c, (pg_stop env cfg w).out = .exited c →
      cmd_down env cfg w = pg_stop env cfg w) := by
  refine ⟨?_, ?_, ?_, ?_⟩
  · intro c hc
    have h1 : cmd_up env cfg w = pg_start env cfg w :=
      andThen_exited _ _ c hc
    refine ⟨h1, ?_⟩
    rw [h1]
    exact hasSpawn_pg_start env cfg w
  · intro hc
    exact andThen_ok _ _ hc
  · intro hc
    exact andThen_ok _ _ hc
  · intro c hc
    exact andThen_exited _ _ c hc

/-- Witness for C8: relational start fails because `pg_ctl` is missing,
so Up is that failure and never launches the cache server; Down sequences
the relational stop before the cache stop. -/
theorem up_down_relational_first_witness :
    let env : Env := ⟨fun p => !(p == "pg_ctl"), fun _ _ => true, fun _ _ w => w,
      fun _ => true, fun _ => none, fun _ _ => .finished true "" "",
      fun _ => .ok (), fun _ => .ok ()⟩
    (cmd_up env defaultConfig wEmpty = pg_start env defaultConfig wEmpty ∧
      hasSpawn (cmd_up env defaultConfig wEmpty).trace = false) ∧
    cmd_down env defaultConfig wEmpty =
      ⟨(redis_stop env defaultConfig (pg_stop env defaultConfig wEmpty).world).out,
       (redis_stop env defaultConfig (pg_stop env defaultConfig wEmpty).world).world,
       (pg_stop env defaultConfig wEmpty).trace ++
         (redis_stop env defaultConfig (pg_stop env defaultConfig wEmpty).world).trace⟩ := by
  intro env
  have h := up_down_relational_first env defaultConfig wEmpty
  exact ⟨h.1 1 (by decide), h.2.2.1 (by decide)⟩

/-! ### C10: the credential file is a sibling of the data directory -/

/-- Splitting distributes over a slash in the middle. -/
theorem splitSlashAux_append (cur : List Char) (xs ys : List Char) :
    splitSlashAux cur (xs ++ '/' :: ys) =
      splitSlashAux cur xs ++ splitSlashAux [] ys := by
  induction xs generalizing cur with
  | nil => simp [splitSlashAux]
  | cons c cs ih =>
    by_cases hc : c = '/'
    · subst hc
      simp [splitSlashAux, ih]
    · simp [splitSlashAux, hc, ih]

/-- The components of the credential-file path are those of the data
directory followed by a dot-dot and the file name. -/
theorem pathComponents_pwfile (d : String) :
    pathComponents (d ++ "/../.pgpass_init") =
      pathComponents d ++ ["..", ".pgpass_init"] := by
  unfold pathComponents
  have hd : (d ++ "/../.pgpass_init").data =
      d.data ++ '/' :: ("../.pgpass_init" : String).data := by
    rw [String.data_append]
  rw [hd, splitSlashAux_append]
  rfl

/-- Folding the normaliser distributes over appending components. -/
theorem normFold_append (s : List String) (xs ys : List String) :
    normFold s (xs ++ ys) = normFold (normFold s xs) ys := by
  unfold normFold
  rw [List.foldl_append]

/-- A `pg_init` run on an unmarked world writes the credential file with
the administrative password. -/
theorem pg_init_writes_pwfile (env : Env) (cfg : DbConfig) (w : World)
    (hm : w.fileExists (pg_marker cfg) = false) :
    Event.writeFile (pwfilePath cfg) cfg.pg_password ∈ (pg_init env cfg w).trace := by
  unfold pg_init
  rw [if_neg (by simp [hm])]
  simp only [runCmd]
  by_cases htf : env.toolFound "initdb" = true
  · rw [if_pos htf]
    by_cases hro : env.runOk "initdb" (pg_initdb_args cfg) = true
    · simp [hro]
    · simp only [Bool.not_eq_true] at hro
      simp [hro]
  · simp only [Bool.not_eq_true] at htf
    rw [if_neg (by simp [htf])]
    simp

/-- C10: the transient credential file is written at the fixed path
`<data-directory>/../.pgpass_init` with the administrative password as
contents; after OS path resolution that file lives beside the data
directory (in its parent), not inside it — so it is not inside the
directory that Reset deletes. Stated for any data directory whose
resolved form ends in a real component (not a dot-dot). -/
theorem pwfile_sibling_of_data_dir (env : Env) (cfg : DbConfig) (w : World)
    (top : String) (rest : List String)
    (hn : normFold [] (pathComponents cfg.pg_data) = top :: rest)
    (htop : top ≠ "..") :
    pwfilePath cfg = cfg.pg_data ++ "/../.pgpass_init" ∧
    (w.fileExists (pg_marker cfg) = false →
      Event.writeFile (pwfilePath cfg) cfg.pg_password ∈ (pg_init env cfg w).trace) ∧
    normalizePath (pwfilePath cfg) =
      (normalizePath cfg.pg_data).dropLast ++ [".pgpass_init"] ∧
    pathInside cfg.pg_data (pwfilePath cfg) = false := by
  have h1 : normStep (top :: rest) ".." = rest := by
    unfold normStep
    rw [if_neg (by decide), if_pos rfl]
    show (if top = ".." then ".." :: top :: rest else rest) = rest
    rw [if_neg htop]
  have h2 : normStep rest ".pgpass_init" = ".pgpass_init" :: rest := by
    unfold normStep
    rw [if_neg (by decide), if_neg (by decide)]
  have hnorm : normFold [] (pathComponents (pwfilePath cfg)) = ".pgpass_init" :: rest := by
    show normFold [] (pathComponents (cfg.pg_data ++ "/../.pgpass_init")) = _
    rw [pathComponents_pwfile, normFold_append, hn]
    show normStep (normStep (top :: rest) "..") ".pgpass_init" = _
    rw [h1, h2]
  have hnd : normalizePath (pwfilePath cfg) = rest.reverse ++ [".pgpass_init"] := by
    unfold normalizePath
    rw [hnorm, List.reverse_cons]
  have hdd : normalizePath cfg.pg_data = rest.reverse ++ [top] := by
    unfold normalizePath
    rw [hn, List.reverse_cons]
  refine ⟨rfl, ?_, ?_, ?_⟩
  · intro hm
    exact pg_init_writes_pwfile env cfg w hm
  · rw [hnd, hdd, List.dropLast_concat]
  · unfold pathInside
    rw [hnd, hdd]
    have hlen : decide ((rest.reverse ++ [top]).length <
        (rest.reverse ++ [".pgpass_init"]).length) = false := by
      apply decide_eq_false
      simp
    rw [hlen, Bool.and_false]

/-- Witness for C10 at the default configuration with an empty world. -/
theorem pwfile_sibling_of_data_dir_witness :
    pwfilePath defaultConfig = defaultConfig.pg_data ++ "/../.pgpass_init" ∧
    Event.writeFile (pwfilePath defaultConfig) defaultConfig.pg_password ∈
      (pg_init envAllOk defaultConfig wEmpty).trace ∧
    normalizePath (pwfilePath defaultConfig) =
      (normalizePath defaultConfig.pg_data).dropLast ++ [".pgpass_init"] ∧
    pathInside defaultConfig.pg_data (pwfilePath defaultConfig) = false := by
  have h := pwfile_sibling_of_data_dir envAllOk defaultConfig wEmpty "postgres"
    [".dev-data"] (by decide) (by decide)
  exact ⟨h.1, h.2.1 (by decide), h.2.2.1, h.2.2.2⟩

/-! ### C7: the Reset sequence -/

@[simp] theorem isStep_print (s : String) : (Event.print s).isStep = false := rfl

@[simp] theorem isStep_eprint (s : String) : (Event.eprint s).isStep = false := rfl

@[simp] theorem isStep_run (p : String) (a : List String) :
    (Event.run p a).isStep = true := rfl

@[simp] theorem isStep_spawn (p : String) (a : List String) :
    (Event.spawn p a).isStep = true := rfl

@[simp] theorem isStep_writeFile (p c : String) :
    (Event.writeFile p c).isStep = true := rfl

@[simp] theorem isStep_removeFile (p : String) :
    (Event.removeFile p).isStep = true := rfl

@[simp] theorem isStep_createDirAll (p : String) :
    (Event.createDirAll p).isStep = true := rfl

@[simp] theorem isStep_removeDirAll (p : String) :
    (Event.removeDirAll p).isStep = true := rfl

@[simp] theorem isStep_pgProbe (u : String) : (Event.pgProbe u).isStep = true := rfl

@[simp] theorem isStep_redisProbe (u : String) :
    (Event.redisProbe u).isStep = true := rfl

@[simp] theorem isStep_sleep (n : Nat) : (Event.sleep n).isStep = true := rfl

/-- The parent-directory events are all operational steps. -/
@[simp] theorem filter_isStep_parentEvents (cfg : DbConfig) :
    (parentEvents cfg).filter Event.isStep = parentEvents cfg := by
  unfold parentEvents
  cases parentPath cfg.pg_data <;> rfl

/-- C7: Reset performs exactly this sequence of operational steps: stop
the relational service, stop the cache service (probe, then shutdown
command), attempt deletion of the relational data directory and then of
the cache working directory — continuing unperturbed even when both
deletions fail — then initialize the relational service (parent dir,
credential file, `initdb`, cleanup), start it, and start the cache
service, in that order, ending in overall success. Stated in a live
scenario whose external tools have no filesystem effects. -/
theorem reset_sequence (env : Env) (cfg : DbConfig) (w : World) (pid : Nat)
    (heff : ∀ p a w', env.runEffect p a w' = w')
    (hpid : pg_read_pid cfg w = some pid)
    (htfpg : env.toolFound "pg_ctl" = true)
    (hstop : env.runOk "pg_ctl" (pg_stop_args cfg) = true)
    (hredis : env.redisConnectResult (redis_connect_url cfg) = .ok ())
    (htfcli : env.toolFound "redis-cli" = true)
    (hrm1 : env.rmdirOk cfg.pg_data = false)
    (hrm2 : env.rmdirOk cfg.redis_dir = false)
    (hm : w.fileExists (pg_marker cfg) = false)
    (htfdb : env.toolFound "initdb" = true)
    (hinit : env.runOk "initdb" (pg_initdb_args cfg) = true)
    (hstart : env.runOk "pg_ctl" (pg_start_args cfg) = true)
    (htfrs : env.toolFound "redis-server" = true)
    (hspawn : env.spawnResult "redis-server" (redis_server_args env cfg) =
      .finished true "" "") :
    (cmd_reset env cfg w).out = .ok ∧
    (cmd_reset env cfg w).trace.filter Event.isStep =
      [Event.run "pg_ctl" (pg_stop_args cfg),
       Event.redisProbe (redis_connect_url cfg),
       Event.run "redis-cli" (redis_cli_args cfg),
       Event.removeDirAll cfg.pg_data,
       Event.removeDirAll cfg.redis_dir] ++
      parentEvents cfg ++
      [Event.writeFile (pwfilePath cfg) cfg.pg_password,
       Event.run "initdb" (pg_initdb_args cfg),
       Event.removeFile (pwfilePath cfg),
       Event.run "pg_ctl" (pg_start_args cfg),
       Event.createDirAll cfg.redis_dir,
       Event.spawn "redis-server" (redis_server_args env cfg)] := by
  have e1 : pg_stop env cfg w =
      ⟨.ok, w, [Event.print "⛔ Stopping PostgreSQL...",
        Event.run "pg_ctl" (pg_stop_args cfg),
        Event.print "✓ PostgreSQL stopped"]⟩ := by
    unfold pg_stop
    rw [hpid]
    simp [runCmd, htfpg, hstop, heff]
  have e2 : redis_stop env cfg w =
      ⟨.ok, w, [Event.redisProbe (redis_connect_url cfg),
        Event.print "⛔ Stopping Redis...",
        Event.run "redis-cli" (redis_cli_args cfg),
        Event.print "✓ Redis stopped"]⟩ := by
    unfold redis_stop redis_connect
    rw [hredis]
    simp [runCmd, htfcli, heff]
  have e3 : pg_init env cfg w =
      ⟨.ok, (w.writeFile (pwfilePath cfg) cfg.pg_password).removeFile (pwfilePath cfg),
        [Event.print "📦 Initializing PostgreSQL data directory..."] ++
          parentEvents cfg ++
          [Event.writeFile (pwfilePath cfg) cfg.pg_password,
           Event.run "initdb" (pg_initdb_args cfg),
           Event.removeFile (pwfilePath cfg),
           Event.print ("✓ PostgreSQL initialized at " ++ cfg.pg_data)]⟩ := by
    unfold pg_init
    rw [if_neg (by simp [hm])]
    simp [runCmd, htfdb, hinit, heff]
  have e4 : ∀ w', pg_start env cfg w' =
      ⟨.ok, w', [Event.print "📦 Starting PostgreSQL...",
        Event.run "pg_ctl" (pg_start_args cfg),
        Event.print ("✓ PostgreSQL started on " ++ cfg.pg_host ++ ":" ++ cfg.pg_port)]⟩ := by
    intro w'
    unfold pg_start
    simp [runCmd, htfpg, hstart, heff]
  have e5 : ∀ w', redis_start env cfg w' =
      ⟨.ok, w', [Event.print "📦 Starting Redis...",
        Event.createDirAll cfg.redis_dir,
        Event.spawn "redis-server" (redis_server_args env cfg),
        Event.print ("✓ Redis started on " ++ cfg.redis_host ++ ":" ++ cfg.redis_port)]⟩ := by
    intro w'
    unfold redis_start
    rw [if_pos htfrs, hspawn]
    simp [heff]
  have hres : cmd_reset env cfg w =
      ⟨.ok, (w.writeFile (pwfilePath cfg) cfg.pg_password).removeFile (pwfilePath cfg),
        [Event.print "⛔ Stopping PostgreSQL...",
         Event.run "pg_ctl" (pg_stop_args cfg),
         Event.print "✓ PostgreSQL stopped",
         Event.redisProbe (redis_connect_url cfg),
         Event.print "⛔ Stopping Redis...",
         Event.run "redis-cli" (redis_cli_args cfg),
         Event.print "✓ Redis stopped",
         Event.print "🗑️  Cleaning data...",
         Event.removeDirAll cfg.pg_data,
         Event.removeDirAll cfg.redis_dir,
         Event.print "📦 Initializing PostgreSQL data directory..."] ++
        parentEvents cfg ++
        [Event.writeFile (pwfilePath cfg) cfg.pg_password,
         Event.run "initdb" (pg_initdb_args cfg),
         Event.removeFile (pwfilePath cfg),
         Event.print ("✓ PostgreSQL initialized at " ++ cfg.pg_data),
         Event.print "📦 Starting PostgreSQL...",
         Event.run "pg_ctl" (pg_start_args cfg),
         Event.print ("✓ PostgreSQL started on " ++ cfg.pg_host ++ ":" ++ cfg.pg_port),
         Event.print "📦 Starting Redis...",
         Event.createDirAll cfg.redis_dir,
         Event.spawn "redis-server" (redis_server_args env cfg),
         Event.print ("✓ Redis started on " ++ cfg.redis_host ++ ":" ++ cfg.redis_port),
         Event.print "✅ Reset complete!"]⟩ := by
    unfold cmd_reset tryRemoveDirAll
    rw [e1]
    simp only [Res.andThen]
    rw [e2]
    simp only [Res.andThen, hrm1, hrm2, Bool.false_eq_true, if_false]
    rw [e3]
    simp only [Res.andThen]
    rw [e4, e5]
    simp only [Res.andThen]
    simp
  rw [hres]
  refine ⟨rfl, ?_⟩
  simp

/-- Witness for C7: the live default configuration with pid 123 on disk,
every tool found and succeeding, the cache reachable, and both directory
deletions failing. -/
theorem reset_sequence_witness :
    let env : Env := ⟨fun _ => true, fun _ _ => true, fun _ _ w => w, fun _ => false,
      fun _ => none, fun _ _ => .finished true "" "",
      fun _ => .ok (), fun _ => .ok ()⟩
    (cmd_reset env defaultConfig wPid123).out = .ok ∧
    (cmd_reset env defaultConfig wPid123).trace.filter Event.isStep =
      [Event.run "pg_ctl" (pg_stop_args defaultConfig),
       Event.redisProbe (redis_connect_url defaultConfig),
       Event.run "redis-cli" (redis_cli_args defaultConfig),
       Event.removeDirAll defaultConfig.pg_data,
       Event.removeDirAll defaultConfig.redis_dir] ++
      parentEvents defaultConfig ++
      [Event.writeFile (pwfilePath defaultConfig) defaultConfig.pg_password,
       Event.run "initdb" (pg_initdb_args defaultConfig),
       Event.removeFile (pwfilePath defaultConfig),
       Event.run "pg_ctl" (pg_start_args defaultConfig),
       Event.createDirAll defaultConfig.redis_dir,
       Event.spawn "redis-server" (redis_server_args env defaultConfig)] := by
  intro env
  exact reset_sequence env defaultConfig wPid123 123 (fun _ _ _ => rfl) (by decide)
    (by decide) (by decide) rfl (by decide) (by decide) (by decide)
    (by decide) (by decide) (by decide) (by decide) (by decide) (by decide)

end Dbmgr
